import Mathlib

/-!
Verification of the test-patience synchronization library (src/src/lib.rs).

The library has two entry points:

* `Client::notify(port)` connects over TCP to ("127.0.0.1", port) and writes
  the fixed payload b"done".
* `Server::wait(timeout)` switches the listener to non-blocking mode, records
  a start timestamp, and polls `accept` in a loop while `start.elapsed() <
  timeout`.  An accepted connection is read to end-of-stream; a buffer equal
  to b"done" yields `Ok(start.elapsed())`, anything else yields a custom
  error with `ErrorKind::Other`.  An accept error of kind `WouldBlock` is
  ignored (the loop sleeps ~1ms and re-polls); any other accept or read error
  is propagated.  If the loop guard fails, a custom error with
  `ErrorKind::TimedOut` is returned.

We embed this shallowly: the operating system and the passage of real time
are an explicit environment.  Each iteration of the poll loop consumes one
`PollEvent` from a trace: the value of `start.elapsed()` sampled at the loop
guard, the outcome of the `accept` call, and the value of `start.elapsed()`
that would be sampled at a success return in that iteration.  Byte buffers
are lists of naturals (byte values).
-/

/-- Subset of Rust's `std::io::ErrorKind` used by the library and its
environment. -/
inductive ErrorKind where
  | wouldBlock
  | timedOut
  | other
  | connectionRefused
  | brokenPipe
  | interrupted
  deriving DecidableEq, Repr

/-- Model of Rust's `std::io::Error`: a kind together with the message text
(for custom errors built with `Error::new`; OS errors carry their own
description). -/
structure IOError where
  kind : ErrorKind
  msg : String
  deriving DecidableEq, Repr

/-- The fixed wire payload b"done" as byte values (ASCII d, o, n, e). -/
def doneBytes : List Nat := [100, 111, 110, 101]

/-- The error built at the end of `Server::wait` when the loop guard fails:
`Error::new(ErrorKind::TimedOut, "did not receive startup notification")`. -/
def timedOutError : IOError :=
  { kind := ErrorKind.timedOut, msg := "did not receive startup notification" }

/-- The error built when an accepted connection carries a payload other than
b"done": `Error::new(ErrorKind::Other, "wrong startup notification received")`. -/
def protocolError : IOError :=
  { kind := ErrorKind.other, msg := "wrong startup notification received" }

/-- Outcome of one `self.listener.accept()` call in the poll loop.  On
success the accepted stream is summarized by the result of
`stream.read_to_end(&mut buf)`: either the complete byte buffer or an I/O
error.  On failure the accept call produced an I/O error (which may have kind
`wouldBlock`). -/
inductive AcceptOutcome where
  | conn (readResult : Except IOError (List Nat))
  | err (e : IOError)
  deriving Repr

/-- One iteration of the environment as seen by the poll loop:
`elapsedAtCheck` is the value of `start.elapsed()` sampled at the loop guard,
`accept` the outcome of the accept call in that iteration, and
`elapsedAtReturn` the value of `start.elapsed()` that the success return
would sample in that iteration (time keeps running while the connection is
read). -/
structure PollEvent where
  elapsedAtCheck : Nat
  accept : AcceptOutcome
  elapsedAtReturn : Nat
  deriving Repr

/-- The poll loop of `Server::wait`, run against an environment trace.
Returns the result of `wait` together with the number of connections that
were accepted.  `none` means the trace ended before the loop did (the
environment gave too few events); a real execution always extends the trace,
since `start.elapsed()` can always be sampled. -/
def waitRun (timeout : Nat) : List PollEvent → Option (Except IOError Nat) × Nat
  | [] => (none, 0)
  | ev :: rest =>
    if ev.elapsedAtCheck < timeout then
      match ev.accept with
      | AcceptOutcome.conn readResult =>
        match readResult with
        | Except.ok buf =>
          if buf = doneBytes then
            (some (Except.ok ev.elapsedAtReturn), 1)
          else
            (some (Except.error protocolError), 1)
        | Except.error e => (some (Except.error e), 1)
      | AcceptOutcome.err e =>
        if e.kind = ErrorKind.wouldBlock then
          waitRun timeout rest
        else
          (some (Except.error e), 0)
    else
      (some (Except.error timedOutError), 0)

/-- Environment of a whole `Server::wait` call: the result of the initial
`set_nonblocking(true)` call (`none` = success) and the poll-loop trace. -/
structure WaitEnv where
  setNonblocking : Option IOError
  trace : List PollEvent

/-- `Server::wait(timeout)`: propagate a `set_nonblocking` failure, otherwise
run the poll loop. -/
def wait (env : WaitEnv) (timeout : Nat) : Option (Except IOError Nat) :=
  match env.setNonblocking with
  | some e => some (Except.error e)
  | none => (waitRun timeout env.trace).1

/-- Network operations a client may perform, as recorded in an operation
log. -/
inductive NetOp where
  | connect (host : String) (port : Nat)
  | write (bytes : List Nat)
  | read
  deriving DecidableEq, Repr

/-- Environment of a `Client::notify` call: the outcome of
`TcpStream::connect` and of `write_all` (`none` = success). -/
structure NotifyEnv where
  connectResult : Option IOError
  writeResult : Option IOError

/-- `Client::notify(port)`: connect to ("127.0.0.1", port), then
`write_all(b"done")`.  Returns the result together with the log of network
operations attempted, in order. -/
def notify (env : NotifyEnv) (port : Nat) : Except IOError Unit × List NetOp :=
  match env.connectResult with
  | some e => (Except.error e, [NetOp.connect "127.0.0.1" port])
  | none =>
    match env.writeResult with
    | some e =>
      (Except.error e, [NetOp.connect "127.0.0.1" port, NetOp.write doneBytes])
    | none =>
      (Except.ok (), [NetOp.connect "127.0.0.1" port, NetOp.write doneBytes])

/-- A poll event that the loop skips: the guard passes and accept fails with
the would-block kind. -/
def isWouldBlockEvent (timeout : Nat) (ev : PollEvent) : Prop :=
  ev.elapsedAtCheck < timeout ∧
    ∃ e : IOError, ev.accept = AcceptOutcome.err e ∧ e.kind = ErrorKind.wouldBlock

/-- The poll loop passes unchanged over a prefix of would-block events. -/
lemma waitRun_skip (timeout : Nat) (pre : List PollEvent)
    (hpre : ∀ ev ∈ pre, isWouldBlockEvent timeout ev) (l : List PollEvent) :
    waitRun timeout (pre ++ l) = waitRun timeout l := by
  induction pre with
  | nil => rfl
  | cons ev rest ih =>
    obtain ⟨hcheck, e, hacc, hkind⟩ := hpre ev (List.mem_cons_self ev rest)
    have hrest : ∀ x ∈ rest, isWouldBlockEvent timeout x := fun x hx =>
      hpre x (List.mem_cons_of_mem ev hx)
    simp only [List.cons_append, waitRun, hcheck, if_pos, hacc, hkind, if_true]
    exact ih hrest

/-- C1: for every call to `wait(timeout)`, if `set_nonblocking` succeeds, all
poll iterations before some iteration are would-block ones, that iteration's
guard sees elapsed time below `timeout`, and its accepted connection reads to
end-of-stream as exactly b"done", then `wait` returns success carrying the
`start.elapsed()` sample taken at the return. -/
theorem wait_success_on_done (env : WaitEnv) (timeout : Nat)
    (pre : List PollEvent) (ev : PollEvent) (rest : List PollEvent)
    (hsnb : env.setNonblocking = none)
    (htrace : env.trace = pre ++ ev :: rest)
    (hpre : ∀ x ∈ pre, isWouldBlockEvent timeout x)
    (hcheck : ev.elapsedAtCheck < timeout)
    (hacc : ev.accept = AcceptOutcome.conn (Except.ok doneBytes)) :
    wait env timeout = some (Except.ok ev.elapsedAtReturn) := by
  simp [wait, hsnb, htrace, waitRun_skip timeout pre hpre, waitRun, hcheck, hacc]

/-- Witness for C1 at a concrete one-event trace. -/
theorem wait_success_on_done_witness :
    wait { setNonblocking := none,
           trace := [{ elapsedAtCheck := 0,
                       accept := AcceptOutcome.conn (Except.ok doneBytes),
                       elapsedAtReturn := 2 }] } 5
      = some (Except.ok 2) :=
  wait_success_on_done
    { setNonblocking := none,
      trace := [{ elapsedAtCheck := 0,
                  accept := AcceptOutcome.conn (Except.ok doneBytes),
                  elapsedAtReturn := 2 }] } 5 []
    { elapsedAtCheck := 0,
      accept := AcceptOutcome.conn (Except.ok doneBytes),
      elapsedAtReturn := 2 } []
    rfl rfl (by simp) (by decide) rfl

/-- C2: if an accepted connection's full payload differs from b"done", `wait`
returns the protocol-violation error at once, independently of the remaining
trace (no further waiting), and that error is not the timeout error. -/
theorem wait_protocol_violation (env : WaitEnv) (timeout : Nat)
    (pre : List PollEvent) (ev : PollEvent) (rest : List PollEvent)
    (buf : List Nat)
    (hsnb : env.setNonblocking = none)
    (htrace : env.trace = pre ++ ev :: rest)
    (hpre : ∀ x ∈ pre, isWouldBlockEvent timeout x)
    (hcheck : ev.elapsedAtCheck < timeout)
    (hacc : ev.accept = AcceptOutcome.conn (Except.ok buf))
    (hbuf : buf ≠ doneBytes) :
    wait env timeout = some (Except.error protocolError) ∧
      protocolError ≠ timedOutError := by
  constructor
  · simp [wait, hsnb, htrace, waitRun_skip timeout pre hpre, waitRun, hcheck,
      hacc, hbuf]
  · intro h
    exact absurd (congrArg IOError.kind h) (by decide)

/-- Witness for C2 with the payload b"oops". -/
theorem wait_protocol_violation_witness :
    wait { setNonblocking := none,
           trace := [{ elapsedAtCheck := 0,
                       accept := AcceptOutcome.conn (Except.ok [111, 111, 112, 115]),
                       elapsedAtReturn := 1 }] } 5
      = some (Except.error protocolError) :=
  (wait_protocol_violation
    { setNonblocking := none,
      trace := [{ elapsedAtCheck := 0,
                  accept := AcceptOutcome.conn (Except.ok [111, 111, 112, 115]),
                  elapsedAtReturn := 1 }] } 5 []
    { elapsedAtCheck := 0,
      accept := AcceptOutcome.conn (Except.ok [111, 111, 112, 115]),
      elapsedAtReturn := 1 } []
    [111, 111, 112, 115]
    rfl rfl (by simp) (by decide) rfl (by decide)).1

/-- C3: if the poll loop reaches an iteration whose guard sees elapsed time
at or above `timeout`, with only would-block iterations before it (no
connection ever accepted), `wait` returns the timeout error; this error
differs from the protocol-violation error and from every I/O error whose
kind is not `TimedOut`, so a caller can distinguish it. -/
theorem wait_timeout_classified (env : WaitEnv) (timeout : Nat)
    (pre : List PollEvent) (ev : PollEvent) (rest : List PollEvent)
    (hsnb : env.setNonblocking = none)
    (htrace : env.trace = pre ++ ev :: rest)
    (hpre : ∀ x ∈ pre, isWouldBlockEvent timeout x)
    (hcheck : ¬ ev.elapsedAtCheck < timeout) :
    wait env timeout = some (Except.error timedOutError) ∧
      timedOutError ≠ protocolError ∧
      (∀ e : IOError, e.kind ≠ ErrorKind.timedOut → timedOutError ≠ e) := by
  refine ⟨?_, ?_, ?_⟩
  · simp [wait, hsnb, htrace, waitRun_skip timeout pre hpre, waitRun, hcheck]
  · intro h
    exact absurd (congrArg IOError.kind h) (by decide)
  · intro e hk h
    exact hk (congrArg IOError.kind h).symm

/-- Witness for C3 at a one-event trace whose guard has already expired. -/
theorem wait_timeout_classified_witness :
    wait { setNonblocking := none,
           trace := [{ elapsedAtCheck := 7,
                       accept := AcceptOutcome.err { kind := ErrorKind.wouldBlock, msg := "" },
                       elapsedAtReturn := 7 }] } 5
      = some (Except.error timedOutError) :=
  (wait_timeout_classified
    { setNonblocking := none,
      trace := [{ elapsedAtCheck := 7,
                  accept := AcceptOutcome.err { kind := ErrorKind.wouldBlock, msg := "" },
                  elapsedAtReturn := 7 }] } 5 []
    { elapsedAtCheck := 7,
      accept := AcceptOutcome.err { kind := ErrorKind.wouldBlock, msg := "" },
      elapsedAtReturn := 7 } []
    rfl rfl (by simp) (by decide)).1

/-- C4: `notify(port)` first connects to the loopback address at `port`; when
both the connect and the write succeed it writes the full payload b"done" and
returns success; a connect failure or an incomplete write surfaces as that
I/O error; and no read operation is ever performed. -/
theorem notify_contract (env : NotifyEnv) (port : Nat) :
    ((notify env port).2).head? = some (NetOp.connect "127.0.0.1" port) ∧
    (env.connectResult = none → env.writeResult = none →
      (notify env port).1 = Except.ok () ∧
        NetOp.write doneBytes ∈ (notify env port).2) ∧
    (∀ e, env.connectResult = some e →
      (notify env port).1 = Except.error e) ∧
    (∀ e, env.connectResult = none → env.writeResult = some e →
      (notify env port).1 = Except.error e) ∧
    NetOp.read ∉ (notify env port).2 := by
  cases hc : env.connectResult with
  | some e => simp [notify, hc]
  | none => cases hw : env.writeResult <;> simp [notify, hc, hw]

/-- Witness for C4: with a cooperative environment, notify returns success. -/
theorem notify_contract_witness :
    (notify { connectResult := none, writeResult := none } 4242).1
      = Except.ok () :=
  ((notify_contract { connectResult := none, writeResult := none } 4242).2.1
    rfl rfl).1

/-- C5: for an accepted connection read to end-of-stream as buffer `buf`
while the guard still passes, `wait` returns success exactly when `buf` is
the four ASCII bytes b"done", and returns the protocol-violation error
exactly when it is not (covering strict prefixes such as b"don" and
extensions such as b"donex"). -/
theorem wait_payload_iff (timeout : Nat) (buf : List Nat) (tc tr : Nat)
    (rest : List PollEvent) (hcheck : tc < timeout) :
    (wait { setNonblocking := none,
            trace := { elapsedAtCheck := tc,
                       accept := AcceptOutcome.conn (Except.ok buf),
                       elapsedAtReturn := tr } :: rest } timeout
        = some (Except.ok tr) ↔ buf = doneBytes) ∧
    (wait { setNonblocking := none,
            trace := { elapsedAtCheck := tc,
                       accept := AcceptOutcome.conn (Except.ok buf),
                       elapsedAtReturn := tr } :: rest } timeout
        = some (Except.error protocolError) ↔ buf ≠ doneBytes) := by
  by_cases hb : buf = doneBytes <;> simp [wait, waitRun, hcheck, hb]

/-- Witness for C5: the strict prefix b"don" is rejected with the
protocol-violation error, and b"donex" likewise. -/
theorem wait_payload_iff_witness :
    (wait { setNonblocking := none,
            trace := [{ elapsedAtCheck := 0,
                        accept := AcceptOutcome.conn (Except.ok [100, 111, 110]),
                        elapsedAtReturn := 1 }] } 5
       = some (Except.error protocolError)) ∧
    (wait { setNonblocking := none,
            trace := [{ elapsedAtCheck := 0,
                        accept := AcceptOutcome.conn (Except.ok [100, 111, 110, 101, 120]),
                        elapsedAtReturn := 1 }] } 5
       = some (Except.error protocolError)) :=
  ⟨(wait_payload_iff 5 [100, 111, 110] 0 1 [] (by decide)).2.mpr (by decide),
   (wait_payload_iff 5 [100, 111, 110, 101, 120] 0 1 [] (by decide)).2.mpr
     (by decide)⟩

/-- C6: in an iteration whose guard passes, an accept failure of kind
would-block makes the loop continue with the rest of the trace, whereas an
accept failure of any other kind, or a read failure on the accepted
connection, is returned to the caller immediately, independently of the rest
of the trace. -/
theorem wait_accept_error_handling (timeout : Nat) (ev : PollEvent)
    (rest : List PollEvent) (hcheck : ev.elapsedAtCheck < timeout) :
    (∀ e : IOError, ev.accept = AcceptOutcome.err e →
      e.kind = ErrorKind.wouldBlock →
      waitRun timeout (ev :: rest) = waitRun timeout rest) ∧
    (∀ e : IOError, ev.accept = AcceptOutcome.err e →
      e.kind ≠ ErrorKind.wouldBlock →
      (waitRun timeout (ev :: rest)).1 = some (Except.error e)) ∧
    (∀ e : IOError, ev.accept = AcceptOutcome.conn (Except.error e) →
      (waitRun timeout (ev :: rest)).1 = some (Except.error e)) := by
  refine ⟨?_, ?_, ?_⟩
  · intro e hacc hk
    simp [waitRun, hcheck, hacc, hk]
  · intro e hacc hk
    simp [waitRun, hcheck, hacc, hk]
  · intro e hacc
    simp [waitRun, hcheck, hacc]

/-- Witness for C6: a would-block event is skipped; a broken-pipe accept
failure is returned at once. -/
theorem wait_accept_error_handling_witness :
    (waitRun 5 [{ elapsedAtCheck := 0,
                  accept := AcceptOutcome.err { kind := ErrorKind.wouldBlock, msg := "" },
                  elapsedAtReturn := 0 }]
       = waitRun 5 []) ∧
    ((waitRun 5 [{ elapsedAtCheck := 0,
                   accept := AcceptOutcome.err { kind := ErrorKind.brokenPipe, msg := "pipe" },
                   elapsedAtReturn := 0 }]).1
       = some (Except.error { kind := ErrorKind.brokenPipe, msg := "pipe" })) :=
  ⟨(wait_accept_error_handling 5
      { elapsedAtCheck := 0,
        accept := AcceptOutcome.err { kind := ErrorKind.wouldBlock, msg := "" },
        elapsedAtReturn := 0 } [] (by decide)).1
      { kind := ErrorKind.wouldBlock, msg := "" } rfl rfl,
   ((wait_accept_error_handling 5
      { elapsedAtCheck := 0,
        accept := AcceptOutcome.err { kind := ErrorKind.brokenPipe, msg := "pipe" },
        elapsedAtReturn := 0 } [] (by decide)).2.1
      { kind := ErrorKind.brokenPipe, msg := "pipe" } rfl (by decide))⟩

/-- C7: with a timeout of zero, `wait` consumes the first timestamp check and
concludes deterministically with the timeout error; the loop body never runs
(no connection is accepted), because the guard requires elapsed time to be
strictly below the timeout. -/
theorem wait_zero_timeout (ev : PollEvent) (rest : List PollEvent) :
    wait { setNonblocking := none, trace := ev :: rest } 0
        = some (Except.error timedOutError) ∧
      (waitRun 0 (ev :: rest)).2 = 0 := by
  constructor <;> simp [wait, waitRun]

/-- C8: every run of the poll loop accepts at most one connection: the loop
recursion only continues past an iteration when accept would-block, and every
accepted connection makes the loop return. -/
theorem wait_accepts_at_most_one (timeout : Nat) (trace : List PollEvent) :
    (waitRun timeout trace).2 ≤ 1 := by
  induction trace with
  | nil => simp [waitRun]
  | cons ev rest ih =>
    by_cases h : ev.elapsedAtCheck < timeout
    · cases hacc : ev.accept with
      | conn r =>
        cases r with
        | ok buf =>
          by_cases hb : buf = doneBytes <;> simp [waitRun, h, hacc, hb]
        | error e => simp [waitRun, h, hacc]
      | err e =>
        by_cases hk : e.kind = ErrorKind.wouldBlock
        · simpa [waitRun, h, hacc, hk] using ih
        · simp [waitRun, h, hacc, hk]
    · simp [waitRun, h]

/-- C9: the success duration is the `start.elapsed()` sample taken at the
return, after the connection has been read: if the guard passed at `tc <
timeout` but reading ran until `tr ≥ timeout`, `wait` still returns success
with the uncapped value `tr`. -/
theorem wait_duration_uncapped (timeout tc tr : Nat) (rest : List PollEvent)
    (hcheck : tc < timeout) (hlate : timeout ≤ tr) :
    wait { setNonblocking := none,
           trace := { elapsedAtCheck := tc,
                      accept := AcceptOutcome.conn (Except.ok doneBytes),
                      elapsedAtReturn := tr } :: rest } timeout
        = some (Except.ok tr) ∧ timeout ≤ tr := by
  constructor
  · simp [wait, waitRun, hcheck]
  · exact hlate

/-- Witness for C9: guard passes at 3 of 5, read finishes at 10; `wait`
returns success with duration 10, which exceeds the timeout 5. -/
theorem wait_duration_uncapped_witness :
    wait { setNonblocking := none,
           trace := [{ elapsedAtCheck := 3,
                       accept := AcceptOutcome.conn (Except.ok doneBytes),
                       elapsedAtReturn := 10 }] } 5
      = some (Except.ok 10) :=
  (wait_duration_uncapped 5 3 10 [] (by decide) (by decide)).1

/-- C10: an accepted connection that closes without delivering any bytes
(empty buffer) makes `wait` return the protocol-violation error, which is
neither a success value nor the timeout error. -/
theorem wait_empty_payload (timeout tc tr : Nat) (rest : List PollEvent)
    (hcheck : tc < timeout) :
    wait { setNonblocking := none,
           trace := { elapsedAtCheck := tc,
                      accept := AcceptOutcome.conn (Except.ok []),
                      elapsedAtReturn := tr } :: rest } timeout
        = some (Except.error protocolError) ∧
      protocolError ≠ timedOutError ∧
      (∀ d : Nat, (Except.error protocolError : Except IOError Nat) ≠ Except.ok d) := by
  refine ⟨?_, ?_, ?_⟩
  · simp [wait, waitRun, hcheck, doneBytes]
  · intro h
    exact absurd (congrArg IOError.kind h) (by decide)
  · intro d h
    exact Except.noConfusion h

/-- Witness for C10 at a concrete trace with an empty buffer. -/
theorem wait_empty_payload_witness :
    wait { setNonblocking := none,
           trace := [{ elapsedAtCheck := 0,
                       accept := AcceptOutcome.conn (Except.ok []),
                       elapsedAtReturn := 1 }] } 5
      = some (Except.error protocolError) :=
  (wait_empty_payload 5 0 1 [] (by decide)).1
